import Mathlib

set_option maxRecDepth 8000

/-!
Shallow embedding of `src/scraper.py` (a Selenium-driven Twitter scraper).
The browser DOM is abstracted into page models (lists of rendered elements
plus the document-height values returned by the scroll scripts); every
extraction helper is translated directly from the Python source.  Python
exceptions are modelled with `Option`/`Except` or with explicit fault flags
at exactly the places the source wraps in `try`/`except`.
-/

/-- Python `str.strip()` on a list of characters. -/
def pyStrip (l : List Char) : List Char :=
  ((l.dropWhile Char.isWhitespace).reverse.dropWhile Char.isWhitespace).reverse

/-- Numeric value of a digit list (most significant digit first). -/
def natOfDigits (l : List Char) : Nat :=
  l.foldl (fun a c => a * 10 + (c.toNat - 48)) 0

/-- Python `str.isdigit()` for ASCII: non-empty and all digits. -/
def isDigits (l : List Char) : Bool :=
  !l.isEmpty && l.all Char.isDigit

/-- `p` occurs at the head of `l`. -/
def prefAux : List Char → List Char → Bool
  | [], _ => true
  | _ :: _, [] => false
  | a :: as, b :: bs => a == b && prefAux as bs

/-- Helper for the Python substring test `pat in s`. -/
def subAux (p : List Char) : List Char → Bool
  | [] => p.isEmpty
  | c :: cs => prefAux p (c :: cs) || subAux p cs

/-- Python substring test `pat in s`. -/
def containsSub (s pat : String) : Bool := subAux pat.data s.data

/-- Python `s.split('/')[-1]`: the suffix after the last slash. -/
def lastSeg (s : String) : String :=
  String.mk ((s.data.reverse.takeWhile (fun c => c ≠ '/')).reverse)

/-- Helper for `re.search(r'/status/(\d+)', url)`: scan for the first
position where `/status/` is followed by at least one digit and return the
maximal digit run there. -/
def statusIdAux : List Char → Option String
  | [] => none
  | c :: cs =>
    if prefAux [ '/', 's', 't', 'a', 't', 'u', 's', '/' ] (c :: cs) then
      let ds := ((c :: cs).drop 8).takeWhile Char.isDigit
      if ds.isEmpty then statusIdAux cs else some (String.mk ds)
    else statusIdAux cs

/-- Tweet-id extraction `re.search(r'/status/(\d+)', url).group(1)`
(lines 188-191 and 334); `none` when the regex does not match. -/
def extractStatusId (url : String) : Option String := statusIdAux url.data

/-- Leftmost match of the regex `\d+(?:\.\d+)?[KkMm]?` (line 80): the
match starts at the first digit; the integer part is the maximal digit
run, the optional fractional part requires a dot followed by a digit, and
one trailing K/k/M/m is absorbed. -/
def reFirstNum : List Char → Option (List Char)
  | [] => none
  | c :: cs =>
    if c.isDigit then
      let ip := (c :: cs).takeWhile Char.isDigit
      let r1 := (c :: cs).dropWhile Char.isDigit
      let fp : List Char :=
        match r1 with
        | '.' :: t => if (t.headD 'x').isDigit then '.' :: t.takeWhile Char.isDigit else []
        | _ => []
      let r2 := r1.drop fp.length
      let suf : List Char :=
        match r2 with
        | k :: _ => if k == 'K' || k == 'k' || k == 'M' || k == 'm' then [ k ] else []
        | [] => []
      some (ip ++ fp ++ suf)
    else reFirstNum cs

/-- Python `int(float(s) * mult)` for token shapes `digits`, `digits.`,
`.digits`, `digits.digits` (the shapes reachable from the surrounding
code), computed with exact rational arithmetic and floored; `none` models
the `ValueError` that `float` raises on any other shape.  Exponent and
sign forms never reach this helper. -/
def floatTimesQ (l : List Char) (mult : Nat) : Option Nat :=
  let ip := l.takeWhile Char.isDigit
  let r := l.dropWhile Char.isDigit
  match r with
  | [] => if ip.isEmpty then none else some (natOfDigits ip * mult)
  | '.' :: fr =>
    let fd := fr.takeWhile Char.isDigit
    if (fr.dropWhile Char.isDigit).isEmpty then
      if ip.isEmpty && fd.isEmpty then none
      else some (natOfDigits (ip ++ fd) * mult / 10 ^ fd.length)
    else none
  | _ => none

/-- Python `s.lower().replace(c, '')` for a lowercase letter `c`. -/
def lowerDrop (l : List Char) (c : Char) : List Char :=
  (l.map Char.toLower).filter (fun x => x ≠ c)

/-- Conversion of a regex-matched token (lines 84-90): K/k scales the
parsed float by 1000, M/m by 1000000, otherwise the token parses as an
integer when it is all digits and counts 0 when not. -/
def parseTok (t : List Char) : Nat :=
  if t.contains 'K' || t.contains 'k' then (floatTimesQ (lowerDrop t 'k') 1000).getD 0
  else if t.contains 'M' || t.contains 'm' then (floatTimesQ (lowerDrop t 'm') 1000000).getD 0
  else if isDigits t then natOfDigits t else 0

/-- Primary-path parse of one metric element's text (lines 77-90): strip,
regex-extract, convert; `none` when the stripped text is empty or the
regex finds no number, in which case the code leaves the metric
unassigned. -/
def parsePrimaryQ (s : String) : Option Nat :=
  let t := pyStrip s.data
  if t.isEmpty then none
  else
    match reFirstNum t with
    | some tok => some (parseTok tok)
    | none => none

/-- The primary parsing path as a total count parser: inputs that assign
nothing count 0. -/
def parsePrimaryText (s : String) : Nat := (parsePrimaryQ s).getD 0

/-- The secondary path's acceptance test (line 101):
`count_text and (count_text.isdigit() or 'K' in count_text or 'M' in count_text)`. -/
def secondaryGate (t : List Char) : Bool :=
  !t.isEmpty && (isDigits t || t.contains 'K' || t.contains 'M')

/-- Secondary-path conversion of an accepted token (lines 102-107);
`none` models a `ValueError` from `float` escaping to the per-metric
`except`. -/
def parseSecondaryQ (t : List Char) : Option Nat :=
  if t.contains 'K' || t.contains 'k' then floatTimesQ (lowerDrop t 'k') 1000
  else if t.contains 'M' || t.contains 'm' then floatTimesQ (lowerDrop t 'm') 1000000
  else some (if isDigits t then natOfDigits t else 0)

/-- Secondary per-metric scan (lines 96-110): the first span text passing
the gate is converted and returned (the `break`); a conversion error
aborts the whole scan through the `except: pass`, leaving the metric 0;
if no text passes the gate the metric stays 0. -/
def secondaryLoop : List String → Nat
  | [] => 0
  | s :: rest =>
    let t := pyStrip s.data
    if secondaryGate t then
      match parseSecondaryQ t with
      | some v => v
      | none => 0
    else secondaryLoop rest

/-- The three engagement metrics, in the key order of the Python dict. -/
structure Metrics where
  reply : Nat
  retweet : Nat
  like : Nat
deriving DecidableEq, Repr

/-- The DOM surface `get_metrics` reads from one tweet element: the
grouped `data-testid` elements of the primary strategy (attribute value
paired with element text, in document order) and, per metric, the span
texts the secondary XPath strategy would enumerate. -/
structure MetricsElem where
  groups : List (String × String)
  secReply : List String
  secRetweet : List String
  secLike : List String
deriving DecidableEq, Repr

/-- One primary-strategy element (lines 72-92): a recognized test-id whose
text yields a regex match assigns that metric, everything else leaves the
accumulator unchanged. -/
def primaryStep (m : Metrics) (e : String × String) : Metrics :=
  if e.1 = "reply" ∨ e.1 = "retweet" ∨ e.1 = "like" then
    match parsePrimaryQ e.2 with
    | some v =>
      if e.1 = "reply" then { m with reply := v }
      else if e.1 = "retweet" then { m with retweet := v }
      else { m with like := v }
    | none => m
  else m

/-- The primary grouped-selector strategy over all elements. -/
def primaryMetrics (gs : List (String × String)) : Metrics :=
  gs.foldl primaryStep ⟨0, 0, 0⟩

/-- The secondary per-metric strategy (lines 95-110). -/
def secondaryMetrics (el : MetricsElem) : Metrics :=
  ⟨secondaryLoop el.secReply, secondaryLoop el.secRetweet, secondaryLoop el.secLike⟩

/-- `get_metrics` (lines 63-114): primary strategy first; the secondary
strategy runs exactly when every primary metric is 0. -/
def get_metrics (el : MetricsElem) : Metrics :=
  let m := primaryMetrics el.groups
  if m.reply = 0 ∧ m.retweet = 0 ∧ m.like = 0 then secondaryMetrics el else m

/-- Abstract `langdetect.detect`: returns a language code or raises. -/
def Detector : Type := String → Except Unit String

/-- `is_english_text` (lines 55-61): detection failure is assumed
English. -/
def is_english_text (det : Detector) (text : String) : Bool :=
  match det text with
  | Except.ok lang => lang = "en"
  | Except.error _ => true

/-- The language-skip guard used at lines 226 and 355:
`english_only and text and not is_english_text(text)`. -/
def shouldSkipLang (det : Detector) (eng : Bool) (text : String) : Bool :=
  eng && (text != "") && !(is_english_text det text)

/-- One output row, with the exact field names of the Python dicts. -/
structure PostRecord where
  id : String
  speaker_nm : String
  conversation_id : String
  reply_to_id : Option String
  reply_to_nm : Option String
  timestamp : String
  text : String
  likes : Nat
  shares : Nat
  num_comments : Nat
deriving DecidableEq, Repr

/-- Author fallback chain (strategy A, strategy B, "unknown") shared by
lines 208-216 and 337-345, with Python `href.split('/')[-1]`. -/
def resolveUser (a b : Option String) : String :=
  match a with
  | some h => lastSeg h
  | none =>
    match b with
    | some h => lastSeg h
    | none => "unknown"

/-- The DOM surface of one rendered element on a thread page.  `none`
fields model selectors that find nothing (the corresponding
`find_element` raises and the local `except` applies the default);
`extractFault` models an exception thrown while extracting this element,
caught by the inner handler at lines 389-391. -/
structure ReplyElem where
  extractFault : Bool
  statusLink : Option String
  userA : Option String
  userB : Option String
  text : Option String
  time : Option String
  metrics : MetricsElem
deriving DecidableEq, Repr

/-- One iteration of the reply scroll loop as observed from the page: the
rendered elements and the two consecutive post-scroll
`document.body.scrollHeight` reads of lines 398 and 399.  `fault` models
an exception from element enumeration or scrolling escaping to the outer
handler at line 410. -/
structure ThreadPass where
  fault : Bool
  elems : List ReplyElem
  h1 : Nat
  h2 : Nat
deriving DecidableEq, Repr

/-- A thread page: `openFails` models the `window.open` script of
line 301 raising before a new context exists. -/
structure ThreadPage where
  openFails : Bool
  passes : List ThreadPass
deriving DecidableEq, Repr

/-- Browsing contexts: how many are open and whether the current one is
the caller's original context. -/
structure Ctx where
  handles : Nat
  onOriginal : Bool
deriving DecidableEq, Repr

/-- The caller's state: exactly one context, focused. -/
def initCtx : Ctx := ⟨1, true⟩

/-- `window.open(..., '_blank')`: one more context, focus unchanged. -/
def openTab (c : Ctx) : Ctx := ⟨c.handles + 1, c.onOriginal⟩

/-- `driver.switch_to.window(driver.window_handles[-1])`. -/
def switchLast (c : Ctx) : Ctx := ⟨c.handles, c.handles == 1⟩

/-- `driver.close()`: closes the current context. -/
def closeCur (c : Ctx) : Ctx := ⟨c.handles - 1, false⟩

/-- `driver.switch_to.window(driver.window_handles[0])`. -/
def switchFirst (c : Ctx) : Ctx := ⟨c.handles, true⟩

/-- One reply element (lines 319-391): stop appending at the quota, skip
on a simulated extraction exception, a missing status link, a permalink
without an id (line 334's unguarded `.group(1)` raises into the inner
`except`), or a language rejection; otherwise append the reply record of
lines 370-383 with parent linkage. -/
def procReplyElem (det : Detector) (now pid puser : String) (limit : Nat) (eng : Bool)
    (acc : List PostRecord) (e : ReplyElem) : List PostRecord :=
  if limit ≤ acc.length then acc
  else if e.extractFault then acc
  else
    match e.statusLink with
    | none => acc
    | some url =>
      match extractStatusId url with
      | none => acc
      | some rid =>
        let user := resolveUser e.userA e.userB
        let txt := e.text.getD ""
        if shouldSkipLang det eng txt then acc
        else
          let ts := e.time.getD now
          let m := get_metrics e.metrics
          acc ++ [ ⟨rid, user, pid, some pid, some puser, ts, txt, m.like, m.retweet, m.reply⟩ ]

/-- Result of the reply scroll loop: collected records, number of
completed loop iterations, final stall counter, and whether an exception
escaped the loop to the outer handler. -/
structure ThreadLoopRes where
  recs : List PostRecord
  iters : Nat
  stall : Nat
  fault : Bool
deriving Repr

/-- The reply scroll loop (lines 308-404): runs while
`scroll_attempts < 10 and len(replies) < replies_limit`; each pass skips
element index 0, folds the rest, then compares the two consecutive
post-scroll height reads of lines 398-399 — incrementing the stall
counter when they are equal and resetting it otherwise. -/
def threadLoop (det : Detector) (now pid puser : String) (limit : Nat) (eng : Bool) :
    List ThreadPass → Nat → Nat → List PostRecord → ThreadLoopRes
  | ps, stall, iters, acc =>
    if 10 ≤ stall ∨ limit ≤ acc.length then ⟨acc, iters, stall, false⟩
    else
      match ps with
      | [] => ⟨acc, iters, stall, false⟩
      | p :: rest =>
        if p.fault then ⟨acc, iters, stall, true⟩
        else
          let acc2 := (p.elems.drop 1).foldl (procReplyElem det now pid puser limit eng) acc
          if p.h1 = p.h2 then
            threadLoop det now pid puser limit eng rest (stall + 1) (iters + 1) acc2
          else
            threadLoop det now pid puser limit eng rest 0 (iters + 1) acc2

/-- What `get_twitter_replies` leaves behind: the returned list and the
browsing-context state. -/
structure ThreadRes where
  recs : List PostRecord
  ctx : Ctx
deriving Repr

/-- `get_twitter_replies` (lines 294-417) over an abstract thread page.
The whole body sits in a `try`; on the success path the tab is closed and
focus switched back (lines 407-408); the `except` (lines 410-415) closes
the current context only when more than one is open, then refocuses the
first, and the partially collected `replies` list is returned either
way. -/
def get_twitter_replies (det : Detector) (now : String) (page : ThreadPage)
    (pid puser : String) (limit : Nat) (eng : Bool) : ThreadRes :=
  if page.openFails then
    let c := initCtx
    ⟨[], if 1 < c.handles then switchFirst (closeCur c) else c⟩
  else
    let c := switchLast (openTab initCtx)
    let res := threadLoop det now pid puser limit eng page.passes 0 0 []
    if res.fault then
      ⟨res.recs, if 1 < c.handles then switchFirst (closeCur c) else c⟩
    else
      ⟨res.recs, switchFirst (closeCur c)⟩

/-- The DOM surface of one rendered element of the root search feed,
together with the thread page behind its permalink. -/
structure RootElem where
  statusLink : Option String
  social : Option String
  userA : Option String
  userB : Option String
  text : Option String
  time : Option String
  metrics : MetricsElem
  thread : ThreadPage
deriving Repr

/-- One iteration of the root scroll loop: `fault` models an exception
caught at line 286; `nextHeight` is the post-scroll height read of
line 276. -/
structure RootPass where
  fault : Bool
  elems : List RootElem
  nextHeight : Nat
deriving Repr

/-- The root search feed: `navFails` models the initial `driver.get`
failing (lines 155-158), `initHeight` is the pre-loop height read of
line 166. -/
structure Feed where
  navFails : Bool
  initHeight : Nat
  passes : List RootPass
deriving Repr

/-- The mutable state of the root loop: the output list (roots and
replies interleaved) and the processed-id set. -/
structure ScrapeState where
  recs : List PostRecord
  processed : List String
deriving Repr

/-- One root feed element (lines 177-269): stop at the post limit, skip
elements without a permalink id, ids already processed, and "Replying to"
posts; apply the language filter; then append the root record of
lines 241-252, add the id to the processed set, and when the reply metric
is positive extend the output with the thread's replies (lines 261-263). -/
def procRootElem (det : Detector) (now : String) (limit rlimit : Nat) (eng : Bool)
    (st : ScrapeState) (e : RootElem) : ScrapeState :=
  if limit ≤ st.processed.length then st
  else
    match e.statusLink with
    | none => st
    | some url =>
      match extractStatusId url with
      | none => st
      | some tid =>
        if st.processed.contains tid then st
        else if (match e.social with
                 | some sc => containsSub sc "Replying to"
                 | none => false) then st
        else
          let user := resolveUser e.userA e.userB
          let txt := e.text.getD ""
          if shouldSkipLang det eng txt then st
          else
            let ts := e.time.getD now
            let m := get_metrics e.metrics
            let rootRec : PostRecord :=
              ⟨tid, user, tid, none, none, ts, txt, m.like, m.retweet, m.reply⟩
            let recs1 := st.recs ++ [ rootRec ]
            let proc1 := st.processed ++ [ tid ]
            if 0 < m.reply then
              let tr := get_twitter_replies det now e.thread tid user rlimit eng
              ⟨recs1 ++ tr.recs, proc1⟩
            else ⟨recs1, proc1⟩

/-- Result of the root scroll loop: final state, number of completed loop
iterations, final stall counter. -/
structure RootLoopRes where
  st : ScrapeState
  iters : Nat
  stall : Nat
deriving Repr

/-- The root scroll loop (lines 166-288): runs while
`len(processed_tweets) < limit and scroll_attempts < 50`; a faulting pass
increments the stall counter leaving the stored height unchanged
(lines 286-288); otherwise the elements are folded and the post-scroll
height is compared with the stored previous height (lines 276-284). -/
def rootLoop (det : Detector) (now : String) (limit rlimit : Nat) (eng : Bool) :
    List RootPass → Nat → Nat → Nat → ScrapeState → RootLoopRes
  | ps, prevH, stall, iters, st =>
    if limit ≤ st.processed.length ∨ 50 ≤ stall then ⟨st, iters, stall⟩
    else
      match ps with
      | [] => ⟨st, iters, stall⟩
      | p :: rest =>
        if p.fault then
          rootLoop det now limit rlimit eng rest prevH (stall + 1) (iters + 1) st
        else
          let st2 := p.elems.foldl (procRootElem det now limit rlimit eng) st
          if p.nextHeight = prevH then
            rootLoop det now limit rlimit eng rest p.nextHeight (stall + 1) (iters + 1) st2
          else
            rootLoop det now limit rlimit eng rest p.nextHeight 0 (iters + 1) st2

/-- `scrape_twitter` (lines 116-292) over an abstract feed: an
unreachable search surface returns `[]` (lines 155-158), otherwise the
root loop runs from an empty state and the accumulated list (roots plus
inlined replies) is returned. -/
def scrape_twitter (det : Detector) (now : String) (feed : Feed)
    (limit rlimit : Nat) (eng : Bool) : List PostRecord :=
  if feed.navFails then []
  else (rootLoop det now limit rlimit eng feed.passes feed.initHeight 0 0 ⟨[], []⟩).st.recs

/-- The limit rewrite in `main` (lines 460-463). -/
def effectiveLimit (l : Int) : Int := if l = 50 then 120 else l

/-- The parsed CLI arguments (lines 14-34). -/
structure Args where
  topic : String
  start_date : String
  end_date : String
  output : String
  limit : Int
  replies_limit : Int
  headless : Bool
  english_only : Bool
deriving DecidableEq, Repr

/-- The argument tuple of the `scrape_twitter` call in `main`. -/
structure CrawlCall where
  topic : String
  start_date : String
  end_date : String
  limit : Int
  replies_limit : Int
  headless : Bool
  english_only : Bool
deriving DecidableEq, Repr

/-- The crawl invocation `main` builds (lines 455-469): the limit rewrite
followed by the call with the literal `english_only=True`. -/
def mainCrawlCall (a : Args) : CrawlCall :=
  ⟨a.topic, a.start_date, a.end_date, effectiveLimit a.limit,
   a.replies_limit, a.headless, true⟩

/-! ## Helper lemmas -/

/-- The linkage every thread-crawler record carries. -/
def replyShaped (pid puser : String) (r : PostRecord) : Prop :=
  r.conversation_id = pid ∧ r.reply_to_id = some pid ∧ r.reply_to_nm = some puser

/-- The linkage every root record carries. -/
def rootShaped (r : PostRecord) : Prop :=
  r.reply_to_id = none → r.conversation_id = r.id ∧ r.reply_to_nm = none

theorem threadLoop_nil (det : Detector) (now pid puser : String) (limit : Nat) (eng : Bool)
    (stall iters : Nat) (acc : List PostRecord) :
    threadLoop det now pid puser limit eng [] stall iters acc = ⟨acc, iters, stall, false⟩ := by
  unfold threadLoop
  split <;> rfl

theorem threadLoop_cons (det : Detector) (now pid puser : String) (limit : Nat) (eng : Bool)
    (p : ThreadPass) (rest : List ThreadPass) (stall iters : Nat) (acc : List PostRecord) :
    threadLoop det now pid puser limit eng (p :: rest) stall iters acc =
      if 10 ≤ stall ∨ limit ≤ acc.length then ⟨acc, iters, stall, false⟩
      else if p.fault then ⟨acc, iters, stall, true⟩
      else if p.h1 = p.h2 then
        threadLoop det now pid puser limit eng rest (stall + 1) (iters + 1)
          ((p.elems.drop 1).foldl (procReplyElem det now pid puser limit eng) acc)
      else
        threadLoop det now pid puser limit eng rest 0 (iters + 1)
          ((p.elems.drop 1).foldl (procReplyElem det now pid puser limit eng) acc) := by
  rfl

theorem procReplyElem_mem {det : Detector} {now pid puser : String} {limit : Nat} {eng : Bool}
    {acc : List PostRecord} {e : ReplyElem} {r : PostRecord}
    (h : r ∈ procReplyElem det now pid puser limit eng acc e) :
    r ∈ acc ∨ replyShaped pid puser r := by
  unfold procReplyElem at h
  dsimp only at h
  repeat' split at h
  all_goals
    first
    | exact Or.inl h
    | exact Or.elim (List.mem_append.1 h) Or.inl (fun h1 => by
        rcases List.mem_singleton.1 h1 with rfl
        exact Or.inr ⟨rfl, rfl, rfl⟩)

theorem foldReply_mem {det : Detector} {now pid puser : String} {limit : Nat} {eng : Bool} :
    ∀ (es : List ReplyElem) (acc : List PostRecord) (r : PostRecord),
      r ∈ es.foldl (procReplyElem det now pid puser limit eng) acc →
      r ∈ acc ∨ replyShaped pid puser r := by
  intro es
  induction es with
  | nil => intro acc r h; exact Or.inl h
  | cons e es ih =>
    intro acc r h
    rw [List.foldl_cons] at h
    rcases ih _ r h with h1 | h1
    · exact procReplyElem_mem h1
    · exact Or.inr h1

theorem threadLoop_mem {det : Detector} {now pid puser : String} {limit : Nat} {eng : Bool} :
    ∀ (ps : List ThreadPass) (stall iters : Nat) (acc : List PostRecord) (r : PostRecord),
      r ∈ (threadLoop det now pid puser limit eng ps stall iters acc).recs →
      r ∈ acc ∨ replyShaped pid puser r := by
  intro ps
  induction ps with
  | nil =>
    intro stall iters acc r h
    rw [threadLoop_nil] at h
    exact Or.inl h
  | cons p rest ih =>
    intro stall iters acc r h
    rw [threadLoop_cons] at h
    split at h
    · exact Or.inl h
    · split at h
      · exact Or.inl h
      · split at h
        · rcases ih _ _ _ r h with h1 | h1
          · exact foldReply_mem _ _ _ h1
          · exact Or.inr h1
        · rcases ih _ _ _ r h with h1 | h1
          · exact foldReply_mem _ _ _ h1
          · exact Or.inr h1

theorem get_twitter_replies_mem {det : Detector} {now : String} {page : ThreadPage}
    {pid puser : String} {limit : Nat} {eng : Bool} {r : PostRecord}
    (h : r ∈ (get_twitter_replies det now page pid puser limit eng).recs) :
    replyShaped pid puser r := by
  unfold get_twitter_replies at h
  split at h
  · simp at h
  · dsimp only at h
    split at h
    · rcases threadLoop_mem _ _ _ _ r h with h1 | h1
      · simp at h1
      · exact h1
    · rcases threadLoop_mem _ _ _ _ r h with h1 | h1
      · simp at h1
      · exact h1

theorem procReplyElem_len {det : Detector} {now pid puser : String} {limit : Nat} {eng : Bool}
    (acc : List PostRecord) (e : ReplyElem) (h : acc.length ≤ limit) :
    (procReplyElem det now pid puser limit eng acc e).length ≤ limit := by
  unfold procReplyElem
  dsimp only
  repeat' split
  any_goals exact h
  simp only [List.length_append, List.length_singleton]
  omega

theorem foldReply_len {det : Detector} {now pid puser : String} {limit : Nat} {eng : Bool} :
    ∀ (es : List ReplyElem) (acc : List PostRecord), acc.length ≤ limit →
      (es.foldl (procReplyElem det now pid puser limit eng) acc).length ≤ limit := by
  intro es
  induction es with
  | nil => intro acc h; exact h
  | cons e es ih =>
    intro acc h
    rw [List.foldl_cons]
    exact ih _ (procReplyElem_len acc e h)

theorem threadLoop_len {det : Detector} {now pid puser : String} {limit : Nat} {eng : Bool} :
    ∀ (ps : List ThreadPass) (stall iters : Nat) (acc : List PostRecord), acc.length ≤ limit →
      (threadLoop det now pid puser limit eng ps stall iters acc).recs.length ≤ limit := by
  intro ps
  induction ps with
  | nil =>
    intro stall iters acc h
    rw [threadLoop_nil]
    exact h
  | cons p rest ih =>
    intro stall iters acc h
    rw [threadLoop_cons]
    split
    · exact h
    · split
      · exact h
      · split
        · exact ih _ _ _ (foldReply_len _ _ h)
        · exact ih _ _ _ (foldReply_len _ _ h)

theorem rootLoop_nil (det : Detector) (now : String) (limit rlimit : Nat) (eng : Bool)
    (prevH stall iters : Nat) (st : ScrapeState) :
    rootLoop det now limit rlimit eng [] prevH stall iters st = ⟨st, iters, stall⟩ := by
  unfold rootLoop
  split <;> rfl

theorem rootLoop_cons (det : Detector) (now : String) (limit rlimit : Nat) (eng : Bool)
    (p : RootPass) (rest : List RootPass) (prevH stall iters : Nat) (st : ScrapeState) :
    rootLoop det now limit rlimit eng (p :: rest) prevH stall iters st =
      if limit ≤ st.processed.length ∨ 50 ≤ stall then ⟨st, iters, stall⟩
      else if p.fault then
        rootLoop det now limit rlimit eng rest prevH (stall + 1) (iters + 1) st
      else if p.nextHeight = prevH then
        rootLoop det now limit rlimit eng rest p.nextHeight (stall + 1) (iters + 1)
          (p.elems.foldl (procRootElem det now limit rlimit eng) st)
      else
        rootLoop det now limit rlimit eng rest p.nextHeight 0 (iters + 1)
          (p.elems.foldl (procRootElem det now limit rlimit eng) st) := by
  rfl

/-- The invariant the root loop maintains: the processed-id set has no
duplicates, it lists exactly the ids of the emitted root records (in
order), and every emitted record carries root linkage when it is a root
record. -/
def scrapeInv (st : ScrapeState) : Prop :=
  st.processed.Nodup ∧
  (st.recs.filter fun r => r.reply_to_id.isNone).map PostRecord.id = st.processed ∧
  ∀ r ∈ st.recs, rootShaped r

theorem scrapeInv_append (st : ScrapeState) (tid user ts txt : String) (lk sh nc : Nat)
    (tr : List PostRecord)
    (hnd : st.processed.Nodup)
    (hmap : (st.recs.filter fun r => r.reply_to_id.isNone).map PostRecord.id = st.processed)
    (hshape : ∀ r ∈ st.recs, rootShaped r)
    (hnm : tid ∉ st.processed)
    (htr : ∀ r ∈ tr, r.reply_to_id = some tid) :
    scrapeInv ⟨st.recs ++ [ ⟨tid, user, tid, none, none, ts, txt, lk, sh, nc⟩ ] ++ tr,
               st.processed ++ [ tid ]⟩ := by
  refine ⟨?_, ?_, ?_⟩
  · simp [List.nodup_append, hnd, hnm]
  · dsimp only
    rw [List.filter_append, List.filter_append]
    have h1 : (tr.filter fun r => r.reply_to_id.isNone) = [] := by
      refine List.filter_eq_nil_iff.2 (fun r hr => ?_)
      simp [htr r hr]
    rw [h1]
    simp [hmap]
  · intro r hr
    rcases List.mem_append.1 hr with hr1 | hr2
    · rcases List.mem_append.1 hr1 with hr3 | hr4
      · exact hshape r hr3
      · rcases List.mem_singleton.1 hr4 with rfl
        intro _
        exact ⟨rfl, rfl⟩
    · intro hnone
      rw [htr r hr2] at hnone
      simp at hnone

theorem scrapeInv_append1 (st : ScrapeState) (tid user ts txt : String) (lk sh nc : Nat)
    (hnd : st.processed.Nodup)
    (hmap : (st.recs.filter fun r => r.reply_to_id.isNone).map PostRecord.id = st.processed)
    (hshape : ∀ r ∈ st.recs, rootShaped r)
    (hnm : tid ∉ st.processed) :
    scrapeInv ⟨st.recs ++ [ ⟨tid, user, tid, none, none, ts, txt, lk, sh, nc⟩ ],
               st.processed ++ [ tid ]⟩ := by
  have h := scrapeInv_append st tid user ts txt lk sh nc [] hnd hmap hshape hnm (by simp)
  rwa [List.append_nil] at h

theorem procRootElem_inv {det : Detector} {now : String} {limit rlimit : Nat} {eng : Bool}
    (st : ScrapeState) (e : RootElem) (h : scrapeInv st) :
    scrapeInv (procRootElem det now limit rlimit eng st e) := by
  obtain ⟨hnd, hmap, hshape⟩ := h
  unfold procRootElem
  dsimp only
  repeat' split
  all_goals try exact ⟨hnd, hmap, hshape⟩
  · rename_i hcont hsoc hlang hrep
    exact scrapeInv_append st _ _ _ _ _ _ _ _ hnd hmap hshape (by simpa using hcont)
      (fun r hr => (get_twitter_replies_mem hr).2.1)
  · rename_i hcont hsoc hlang hrep
    exact scrapeInv_append1 st _ _ _ _ _ _ _ hnd hmap hshape (by simpa using hcont)

theorem foldRoot_inv {det : Detector} {now : String} {limit rlimit : Nat} {eng : Bool} :
    ∀ (es : List RootElem) (st : ScrapeState), scrapeInv st →
      scrapeInv (es.foldl (procRootElem det now limit rlimit eng) st) := by
  intro es
  induction es with
  | nil => intro st h; exact h
  | cons e es ih =>
    intro st h
    rw [List.foldl_cons]
    exact ih _ (procRootElem_inv st e h)

theorem rootLoop_inv {det : Detector} {now : String} {limit rlimit : Nat} {eng : Bool} :
    ∀ (ps : List RootPass) (prevH stall iters : Nat) (st : ScrapeState), scrapeInv st →
      scrapeInv (rootLoop det now limit rlimit eng ps prevH stall iters st).st := by
  intro ps
  induction ps with
  | nil =>
    intro prevH stall iters st h
    rw [rootLoop_nil]
    exact h
  | cons p rest ih =>
    intro prevH stall iters st h
    rw [rootLoop_cons]
    split
    · exact h
    · split
      · exact ih _ _ _ _ h
      · split
        · exact ih _ _ _ _ (foldRoot_inv _ _ h)
        · exact ih _ _ _ _ (foldRoot_inv _ _ h)

/-- The two output facts of the root crawler used by the claims:
root-record ids are duplicate-free, and every output record has root
linkage whenever its `reply_to_id` is null. -/
theorem scrape_twitter_out (det : Detector) (now : String) (feed : Feed)
    (limit rlimit : Nat) (eng : Bool) :
    (((scrape_twitter det now feed limit rlimit eng).filter
        fun r => r.reply_to_id.isNone).map PostRecord.id).Nodup ∧
    ∀ r ∈ scrape_twitter det now feed limit rlimit eng, rootShaped r := by
  unfold scrape_twitter
  split
  · simp
  · have h : scrapeInv
        (rootLoop det now limit rlimit eng feed.passes feed.initHeight 0 0 ⟨[], []⟩).st :=
      rootLoop_inv feed.passes feed.initHeight 0 0 ⟨[], []⟩
        ⟨List.nodup_nil, by simp, by simp⟩
    refine ⟨?_, h.2.2⟩
    rw [h.2.1]
    exact h.1

theorem shouldSkipLang_congr {det det2 : Detector} (H : ∀ t, t ≠ "" → det t = det2 t)
    (eng : Bool) (t : String) : shouldSkipLang det eng t = shouldSkipLang det2 eng t := by
  by_cases ht : t = ""
  · subst ht
    simp [shouldSkipLang]
  · simp [shouldSkipLang, is_english_text, H t ht]

theorem procReplyElem_congr {det det2 : Detector} (H : ∀ t, t ≠ "" → det t = det2 t)
    (now pid puser : String) (limit : Nat) (eng : Bool) (acc : List PostRecord) (e : ReplyElem) :
    procReplyElem det now pid puser limit eng acc e =
    procReplyElem det2 now pid puser limit eng acc e := by
  unfold procReplyElem
  simp only [shouldSkipLang_congr H]

theorem threadLoop_congr {det det2 : Detector} (H : ∀ t, t ≠ "" → det t = det2 t)
    (now pid puser : String) (limit : Nat) (eng : Bool) :
    ∀ (ps : List ThreadPass) (stall iters : Nat) (acc : List PostRecord),
      threadLoop det now pid puser limit eng ps stall iters acc =
      threadLoop det2 now pid puser limit eng ps stall iters acc := by
  have hf : procReplyElem det now pid puser limit eng =
      procReplyElem det2 now pid puser limit eng :=
    funext fun a => funext fun e => procReplyElem_congr H now pid puser limit eng a e
  intro ps
  induction ps with
  | nil => intro stall iters acc; rw [threadLoop_nil, threadLoop_nil]
  | cons p rest ih =>
    intro stall iters acc
    rw [threadLoop_cons, threadLoop_cons, hf]
    by_cases h1 : 10 ≤ stall ∨ limit ≤ acc.length
    · rw [if_pos h1, if_pos h1]
    · rw [if_neg h1, if_neg h1]
      by_cases h2 : p.fault
      · rw [if_pos h2, if_pos h2]
      · rw [if_neg h2, if_neg h2]
        by_cases h3 : p.h1 = p.h2
        · rw [if_pos h3, if_pos h3]
          exact ih _ _ _
        · rw [if_neg h3, if_neg h3]
          exact ih _ _ _

theorem get_twitter_replies_congr {det det2 : Detector} (H : ∀ t, t ≠ "" → det t = det2 t)
    (now : String) (page : ThreadPage) (pid puser : String) (limit : Nat) (eng : Bool) :
    get_twitter_replies det now page pid puser limit eng =
    get_twitter_replies det2 now page pid puser limit eng := by
  unfold get_twitter_replies
  simp only [threadLoop_congr H]

theorem procRootElem_congr {det det2 : Detector} (H : ∀ t, t ≠ "" → det t = det2 t)
    (now : String) (limit rlimit : Nat) (eng : Bool) (st : ScrapeState) (e : RootElem) :
    procRootElem det now limit rlimit eng st e =
    procRootElem det2 now limit rlimit eng st e := by
  unfold procRootElem
  simp only [shouldSkipLang_congr H, get_twitter_replies_congr H]

theorem rootLoop_congr {det det2 : Detector} (H : ∀ t, t ≠ "" → det t = det2 t)
    (now : String) (limit rlimit : Nat) (eng : Bool) :
    ∀ (ps : List RootPass) (prevH stall iters : Nat) (st : ScrapeState),
      rootLoop det now limit rlimit eng ps prevH stall iters st =
      rootLoop det2 now limit rlimit eng ps prevH stall iters st := by
  have hf : procRootElem det now limit rlimit eng = procRootElem det2 now limit rlimit eng :=
    funext fun st => funext fun e => procRootElem_congr H now limit rlimit eng st e
  intro ps
  induction ps with
  | nil => intro prevH stall iters st; rw [rootLoop_nil, rootLoop_nil]
  | cons p rest ih =>
    intro prevH stall iters st
    rw [rootLoop_cons, rootLoop_cons, hf]
    by_cases h1 : limit ≤ st.processed.length ∨ 50 ≤ stall
    · rw [if_pos h1, if_pos h1]
    · rw [if_neg h1, if_neg h1]
      by_cases h2 : p.fault
      · rw [if_pos h2, if_pos h2]
        exact ih _ _ _ _
      · rw [if_neg h2, if_neg h2]
        by_cases h3 : p.nextHeight = prevH
        · rw [if_pos h3, if_pos h3]
          exact ih _ _ _ _
        · rw [if_neg h3, if_neg h3]
          exact ih _ _ _ _

theorem scrape_twitter_congr {det det2 : Detector} (H : ∀ t, t ≠ "" → det t = det2 t)
    (now : String) (feed : Feed) (limit rlimit : Nat) (eng : Bool) :
    scrape_twitter det now feed limit rlimit eng =
    scrape_twitter det2 now feed limit rlimit eng := by
  unfold scrape_twitter
  rw [rootLoop_congr H now limit rlimit eng feed.passes feed.initHeight 0 0 ⟨[], []⟩]

/-! ## Concrete fixtures -/

/-- A detector that always raises. -/
def det0 : Detector := fun _ => Except.error ()

/-- A detector that always answers English. -/
def detOk : Detector := fun _ => Except.ok "en"

/-- A detector that raises exactly on empty input and otherwise answers
English. -/
def detMix : Detector := fun t => if t = "" then Except.error () else Except.ok "en"

/-- A metrics surface whose primary strategy yields a reply count of 2. -/
def cMetricsReply : MetricsElem := ⟨[ ("reply", "2") ], [], [], []⟩

/-- A metrics surface yielding all-zero metrics. -/
def cMetricsZero : MetricsElem := ⟨[], [], [], []⟩

/-- A rendered reply element with id 101 by author bob. -/
def cReply : ReplyElem :=
  ⟨false, some "https://x.com/bob/status/101", some "https://x.com/bob", none,
   some "yo", some "t2", cMetricsZero⟩

/-- The index-0 element of a thread page (the re-rendered root), skipped
by the loop. -/
def cDummy : ReplyElem := ⟨false, none, none, none, none, none, cMetricsZero⟩

/-- One thread pass rendering the root plus the same reply, with equal
height reads. -/
def cTPass : ThreadPass := ⟨false, [ cDummy, cReply ], 100, 100⟩

/-- A thread page that renders the identical reply element on two
successive scroll passes (infinite scroll keeps earlier content). -/
def cThread : ThreadPage := ⟨false, [ cTPass, cTPass ]⟩

/-- A thread page with a single pass. -/
def cThread1 : ThreadPage := ⟨false, [ cTPass ]⟩

/-- A root feed element with id 1 by author alice and a positive reply
metric, whose thread page is `cThread`. -/
def cRoot : RootElem :=
  ⟨some "https://x.com/alice/status/1", none, some "https://x.com/alice", none,
   some "hi", some "t1", cMetricsReply, cThread⟩

/-- A feed with one pass rendering `cRoot`. -/
def cFeed : Feed := ⟨false, 100, [ ⟨false, [ cRoot ], 100⟩ ]⟩

/-- The reply record the thread crawler emits for `cReply` under root
(1, alice). -/
def r101 : PostRecord :=
  ⟨"101", "bob", "1", some "1", some "alice", "t2", "yo", 0, 0, 0⟩

/-- Twelve thread passes whose document height strictly grows from one
scroll to the next (pass i reads height 100 + i twice). -/
def growPasses : List ThreadPass :=
  (List.range 12).map (fun i => ⟨false, [], 100 + i, 100 + i⟩)

/-- Sixty root passes with no elements and a height that never changes
from the initial reading of 100. -/
def constPasses : List RootPass := List.replicate 60 ⟨false, [], 100⟩

/-! ## Claims -/

/-- C1, counterexample: the claim "every emitted PostRecord's id is
unique across the whole output" is false.  Replies are never added to the
dedup set nor checked against anything: on the concrete feed `cFeed`,
whose thread page re-renders the same reply on two scroll passes, the run
emits ids ["1", "101", "101"]. -/
theorem c1_counterexample :
    (scrape_twitter det0 "now" cFeed 5 5 false).map PostRecord.id = ["1", "101", "101"] ∧
    ¬ ((scrape_twitter det0 "now" cFeed 5 5 false).map PostRecord.id).Nodup := by
  constructor
  · rfl
  · decide

/-- C1, amended: the dedup set keyed by `id` covers only the root pass,
so root records' ids are pairwise distinct in every run; reply records
are exempt from deduplication (and may repeat). -/
theorem c1_theorem (det : Detector) (now : String) (feed : Feed)
    (limit rlimit : Nat) (eng : Bool) :
    (((scrape_twitter det now feed limit rlimit eng).filter
        fun r => r.reply_to_id.isNone).map PostRecord.id).Nodup :=
  (scrape_twitter_out det now feed limit rlimit eng).1

/-- C2: the root loop does behave as claimed — on a feed whose height
never changes it stops after exactly 50 scroll iterations with the stall
counter at 50.  The per-thread loop does not: lines 398-399 compare two
consecutive post-scroll height reads (never the pre-scroll height), so on
`growPasses`, where the height strictly grows on every scroll, the stall
counter still increments every pass and the loop stops after 10
iterations with the counter at 10, where the claimed reset-on-change rule
would have consumed all 12 passes with the counter at 0. -/
theorem c2_theorem :
    (rootLoop det0 "now" 5 5 false constPasses 100 0 0 ⟨[], []⟩).iters = 50 ∧
    (rootLoop det0 "now" 5 5 false constPasses 100 0 0 ⟨[], []⟩).stall = 50 ∧
    (threadLoop det0 "now" "1" "alice" 5 false growPasses 0 0 []).iters = 10 ∧
    (threadLoop det0 "now" "1" "alice" 5 false growPasses 0 0 []).stall = 10 := by
  refine ⟨rfl, rfl, rfl, rfl⟩

/-- C3, counterexample: the claim that a K/k suffix multiplies by 1000
"under both the primary and the secondary selector strategy's parsing
paths" fails for lowercase suffixes on the secondary path: its gate
(line 101) tests only for uppercase K and M, so the span text "5k" is
rejected and the metric stays 0 instead of 5000. -/
theorem c3_counterexample :
    secondaryLoop [ "5k" ] = 0 ∧ secondaryLoop [ "5k" ] ≠ 5000 := by
  refine ⟨rfl, by decide⟩

/-- C3, amended: both parsing paths are total and agree with the claimed
test vector (1.2K ↦ 1200, 3M ↦ 3000000, 47 ↦ 47, "" ↦ 0, garbage ↦ 0);
the K/k and M/m multiplications hold on the primary path for both cases,
but on the secondary path a token with a lowercase k suffix fails the
uppercase-only gate and yields 0. -/
theorem c3_theorem :
    parsePrimaryText "1.2K" = 1200 ∧ parsePrimaryText "3M" = 3000000 ∧
    parsePrimaryText "47" = 47 ∧ parsePrimaryText "" = 0 ∧
    parsePrimaryText "garbage" = 0 ∧
    parsePrimaryText "1.2k" = 1200 ∧ parsePrimaryText "3m" = 3000000 ∧
    secondaryLoop [ "1.2K" ] = 1200 ∧ secondaryLoop [ "3M" ] = 3000000 ∧
    secondaryLoop [ "47" ] = 47 ∧ secondaryLoop [ "" ] = 0 ∧
    secondaryLoop [ "garbage" ] = 0 ∧ secondaryLoop [ "5k" ] = 0 := by
  refine ⟨rfl, rfl, rfl, rfl, rfl, rfl, rfl, rfl, rfl, rfl, rfl, rfl, rfl⟩

/-- C4: for every thread page — including pages where opening the
context fails, a pass faults while enumerating or scrolling, or elements
fault during extraction — `get_twitter_replies` returns a plain result
(the embedding's type has no exception case: the outer `except` catches
the body) and the browsing-context state equals the caller's original
single focused context: the isolated context is closed and focus is
restored on every path. -/
theorem c4_theorem (det : Detector) (now : String) (page : ThreadPage)
    (pid puser : String) (limit : Nat) (eng : Bool) :
    (get_twitter_replies det now page pid puser limit eng).ctx = initCtx := by
  unfold get_twitter_replies
  split
  · rfl
  · dsimp only
    split
    · rfl
    · rfl

/-- C5: every output record of the search crawler whose `reply_to_id` is
null has `conversation_id` equal to its own id and a null
`reply_to_nm`; every record emitted by the thread crawler for root
(pid, puser) carries `conversation_id = pid`, `reply_to_id = some pid`
and `reply_to_nm = some puser`. -/
theorem c5_theorem :
    (∀ (det : Detector) (now : String) (feed : Feed) (limit rlimit : Nat) (eng : Bool),
      ∀ r ∈ scrape_twitter det now feed limit rlimit eng,
        r.reply_to_id = none → r.conversation_id = r.id ∧ r.reply_to_nm = none) ∧
    (∀ (det : Detector) (now : String) (page : ThreadPage) (pid puser : String)
        (limit : Nat) (eng : Bool),
      ∀ r ∈ (get_twitter_replies det now page pid puser limit eng).recs,
        r.conversation_id = pid ∧ r.reply_to_id = some pid ∧ r.reply_to_nm = some puser) := by
  constructor
  · intro det now feed limit rlimit eng r hr hnone
    exact (scrape_twitter_out det now feed limit rlimit eng).2 r hr hnone
  · intro det now page pid puser limit eng r hr
    exact get_twitter_replies_mem hr

/-- C5, witness: the concrete thread run on `cThread1` emits `r101`, and
the theorem instantiates to its linkage fields. -/
theorem c5_witness :
    r101.conversation_id = "1" ∧ r101.reply_to_id = some "1" ∧
    r101.reply_to_nm = some "alice" :=
  c5_theorem.2 det0 "now" cThread1 "1" "alice" 5 false r101 (by decide)

/-- C6: for every thread page (any contents, any number of passes, any
fault pattern), the thread crawler returns at most `limit` records. -/
theorem c6_theorem (det : Detector) (now : String) (page : ThreadPage)
    (pid puser : String) (limit : Nat) (eng : Bool) :
    (get_twitter_replies det now page pid puser limit eng).recs.length ≤ limit := by
  unfold get_twitter_replies
  split
  · simp
  · dsimp only
    split
    · exact threadLoop_len _ _ _ _ (by simp)
    · exact threadLoop_len _ _ _ _ (by simp)

/-- C7: `get_metrics` runs the secondary strategy exactly when every
metric of the primary strategy is zero: when some primary metric is
nonzero the result is the primary result and is independent of the
secondary span lists; when all primary metrics are zero the result is the
secondary result; and when both strategies yield zeros the result is all
zeros. -/
theorem c7_theorem (el : MetricsElem) :
    (primaryMetrics el.groups ≠ ⟨0, 0, 0⟩ →
      get_metrics el = primaryMetrics el.groups ∧
      ∀ sr srt sl, get_metrics ⟨el.groups, sr, srt, sl⟩ = primaryMetrics el.groups) ∧
    (primaryMetrics el.groups = ⟨0, 0, 0⟩ → get_metrics el = secondaryMetrics el) ∧
    (primaryMetrics el.groups = ⟨0, 0, 0⟩ → secondaryMetrics el = ⟨0, 0, 0⟩ →
      get_metrics el = ⟨0, 0, 0⟩) := by
  have hiff : ∀ m : Metrics, (m.reply = 0 ∧ m.retweet = 0 ∧ m.like = 0) ↔ m = ⟨0, 0, 0⟩ := by
    intro m
    cases m
    simp [Metrics.mk.injEq]
  refine ⟨?_, ?_, ?_⟩
  · intro hne
    have hc : ¬((primaryMetrics el.groups).reply = 0 ∧ (primaryMetrics el.groups).retweet = 0 ∧
        (primaryMetrics el.groups).like = 0) := fun hz => hne ((hiff _).1 hz)
    constructor
    · unfold get_metrics
      dsimp only
      rw [if_neg hc]
    · intro sr srt sl
      unfold get_metrics
      dsimp only
      rw [if_neg hc]
  · intro hz
    have hc := (hiff _).2 hz
    unfold get_metrics
    dsimp only
    rw [if_pos hc]
  · intro hz hsz
    have hc := (hiff _).2 hz
    unfold get_metrics
    dsimp only
    rw [if_pos hc]
    exact hsz

/-- C7, witness: on a surface whose primary strategy reads likes 5 the
result is the primary result; on a surface whose primary strategy reads
nothing and whose secondary reply spans hold "3" the result is the
secondary result. -/
theorem c7_witness :
    get_metrics ⟨[ ("like", "5") ], [], [], []⟩ = primaryMetrics [ ("like", "5") ] ∧
    get_metrics ⟨[], [ "3" ], [], []⟩ = secondaryMetrics ⟨[], [ "3" ], [], []⟩ :=
  ⟨((c7_theorem ⟨[ ("like", "5") ], [], [], []⟩).1 (by decide)).1,
   (c7_theorem ⟨[], [ "3" ], [], []⟩).2.1 (by decide)⟩

/-- C8: the language filter fails open — whenever the underlying
detection raises, `is_english_text` is true; the skip guard never fires
on empty text; and both crawlers consult the detector only on non-empty
text: two detectors agreeing on all non-empty strings produce identical
runs, whatever they do (raise or answer) on the empty string. -/
theorem c8_theorem :
    (∀ (det : Detector) (t : String), det t = Except.error () → is_english_text det t = true) ∧
    (∀ (det : Detector) (eng : Bool), shouldSkipLang det eng "" = false) ∧
    (∀ det det2 : Detector, (∀ t, t ≠ "" → det t = det2 t) →
      (∀ (now : String) (feed : Feed) (limit rlimit : Nat) (eng : Bool),
        scrape_twitter det now feed limit rlimit eng =
        scrape_twitter det2 now feed limit rlimit eng) ∧
      (∀ (now : String) (page : ThreadPage) (pid puser : String) (limit : Nat) (eng : Bool),
        get_twitter_replies det now page pid puser limit eng =
        get_twitter_replies det2 now page pid puser limit eng)) := by
  refine ⟨?_, ?_, ?_⟩
  · intro det t h
    unfold is_english_text
    rw [h]
  · intro det eng
    simp [shouldSkipLang]
  · intro det det2 H
    exact ⟨fun now feed limit rlimit eng => scrape_twitter_congr H now feed limit rlimit eng,
           fun now page pid puser limit eng =>
             get_twitter_replies_congr H now page pid puser limit eng⟩

/-- C8, witness: a raising detector classifies as English, and swapping
a detector's behaviour on the empty string only does not change the
concrete run on `cFeed` with the language restriction enabled. -/
theorem c8_witness :
    is_english_text det0 "hola" = true ∧
    scrape_twitter detOk "now" cFeed 5 5 true = scrape_twitter detMix "now" cFeed 5 5 true :=
  ⟨c8_theorem.1 det0 "hola" rfl,
   (c8_theorem.2.2 detOk detMix (fun t ht => by simp [detOk, detMix, ht])).1 "now" cFeed 5 5 true⟩

/-- C9: `main` always passes `english_only=True` to the crawl — the
call's flag is `true` for every parsed argument record, and flipping the
parsed `--english_only` flag leaves the built call unchanged. -/
theorem c9_theorem (a : Args) :
    (mainCrawlCall a).english_only = true ∧
    ∀ b : Bool, mainCrawlCall { a with english_only := b } = mainCrawlCall a := by
  exact ⟨rfl, fun b => rfl⟩

/-- C10: `main` rewrites a post limit of exactly 50 to 120 and leaves
every other value unchanged. -/
theorem c10_theorem :
    effectiveLimit 50 = 120 ∧ ∀ l : Int, l ≠ 50 → effectiveLimit l = l := by
  constructor
  · rfl
  · intro l h
    unfold effectiveLimit
    rw [if_neg h]

/-- C10, witness: the default limit 120 passes through unchanged. -/
theorem c10_witness : effectiveLimit 120 = 120 := c10_theorem.2 120 (by decide)
